import Mathlib

/-!
Shallow embedding, in Lean 4, of the orchestration core of the
`vitrinealu-marketing` repository:

* `services/background-service/src/limits.py`   — `TokenBucketLimiter`
* `services/media_ingest/src/media_ingest/curation.py` — `CurationEngine`
* `services/media_ingest/src/media_ingest/pipeline.py` — `ProcessedDatabase`,
  `MediaPipeline.process_file`, `MediaPipeline.process_batch`
* `services/background-service/src/generate.py`  — `SDXLGenerator` cache
* `services/background-service/src/runway_adapter.py` — `RunwayAdapter._poll_task_status`
* `services/background-service/src/main.py`      — `replace_background` engine
  selection / fallback section and the `ProcessingResponse` it builds.

Machine integers are modelled as `Nat`/`Int`/`Rat` (Python integers are
unbounded; Python floats are modelled by exact rationals, which is faithful to
every comparison the embedded code performs on concrete decimal literals).
Fallible Python code is modelled with `Except`; external collaborators (the
trained models, disk and network I/O) are inputs of the embedded functions, as
the spec declares them out of scope.  Time is modelled in whole seconds.
-/

namespace VitrineAlu

/-- Python exceptions that the embedded code can raise or observe. -/
inductive Exn where
  | nameError (name : String)
  | importError (name : String)
  | valueError (msg : String)
  | runtimeError (msg : String)
  | ioError (msg : String)
  | httpException (status : Nat) (detail : String)
  | timeoutError (msg : String)
  | requestException (msg : String)
  | other (msg : String)
deriving DecidableEq, Repr

/-- `str(e)` as the `main.py` handler interpolates it into messages; only the
detail text matters to the embedded control flow. -/
def Exn.msg : Exn → String
  | .nameError n => "name " ++ n ++ " is not defined"
  | .importError n => "cannot import name " ++ n
  | .valueError m => m
  | .runtimeError m => m
  | .ioError m => m
  | .httpException _ d => d
  | .timeoutError m => m
  | .requestException m => m
  | .other m => m

/-! ## `limits.py` — `TokenBucketLimiter`

```python
class TokenBucketLimiter:
    def __init__(self, rate_per_minute, allow_4k):
        self.capacity = rate_per_minute
        self.tokens = rate_per_minute
        self.allow_4k = allow_4k
        self.last_refill = time.monotonic()

    def _refill(self):
        now = time.monotonic()
        elapsed = now - self.last_refill
        refill = int(elapsed * (self.capacity / 60))
        if refill > 0:
            self.tokens = min(self.capacity, self.tokens + refill)
            self.last_refill = now

    def acquire(self, size):
        self._refill()
        with self.lock:
            if size[0] > 4096 or size[1] > 4096:
                if not self.allow_4k:
                    raise OversizeError(...)
            if self.tokens > 0:
                self.tokens -= 1
                return True
            raise RateLimitError('Too many requests')
```

The clock is whole seconds (`now : Nat`); `int(elapsed * (capacity / 60))` is
the floor `elapsed * capacity / 60` for a non-negative integer number of
elapsed seconds. -/

/-- The two exception classes of `limits.py`. -/
inductive LimErr where
  | oversize (msg : String)
  | rateLimit (msg : String)
deriving DecidableEq, Repr

/-- Mutable state of a `TokenBucketLimiter` instance. -/
structure TokenBucketLimiter where
  capacity : Nat
  tokens : Nat
  allow_4k : Bool
  last_refill : Nat
deriving DecidableEq, Repr

namespace TokenBucketLimiter

/-- `TokenBucketLimiter.__init__(rate_per_minute, allow_4k)` at time `now`. -/
def init (rate_per_minute : Nat) (allow4k : Bool) (now : Nat) : TokenBucketLimiter :=
  { capacity := rate_per_minute, tokens := rate_per_minute
    allow_4k := allow4k, last_refill := now }

/-- `TokenBucketLimiter._refill` called at time `now`. -/
def refill (st : TokenBucketLimiter) (now : Nat) : TokenBucketLimiter :=
  let elapsed := now - st.last_refill
  let r := elapsed * st.capacity / 60
  if r > 0 then
    { st with tokens := min st.capacity (st.tokens + r), last_refill := now }
  else st

/-- `TokenBucketLimiter.acquire(size)` called at time `now`; returns the raised
exception or success, together with the state the object is left in. -/
def acquire (st : TokenBucketLimiter) (now : Nat) (size : Nat × Nat) :
    Except LimErr Unit × TokenBucketLimiter :=
  let st1 := refill st now
  if (size.1 > 4096 || size.2 > 4096) && !st1.allow_4k then
    (.error (.oversize "Requested size exceeds 4K and ALLOW_4K is not set"), st1)
  else if st1.tokens > 0 then
    (.ok (), { st1 with tokens := st1.tokens - 1 })
  else
    (.error (.rateLimit "Too many requests"), st1)

/-- `n` successive `acquire` calls, all at time `now` with request `size`,
keeping only the threaded state. -/
def acquireSeq (now : Nat) (size : Nat × Nat) (st : TokenBucketLimiter) : Nat → TokenBucketLimiter
  | 0 => st
  | n + 1 => (acquire (acquireSeq now size st n) now size).2

end TokenBucketLimiter

end VitrineAlu

namespace VitrineAlu

open TokenBucketLimiter

/-- With zero elapsed time a refill changes nothing. -/
theorem refill_self (st : TokenBucketLimiter) : refill st st.last_refill = st := by
  simp [refill]

/-- State after `k ≤ capacity` zero-elapsed acquires from a freshly built
limiter: `k` tokens are gone, the clock never moved. -/
theorem acquireSeq_init (c : Nat) (a : Bool) (t : Nat) (size : Nat × Nat)
    (hs1 : size.1 ≤ 4096) (hs2 : size.2 ≤ 4096) :
    ∀ k, k ≤ c →
      acquireSeq t size (init c a t) k =
        { capacity := c, tokens := c - k, allow_4k := a, last_refill := t } := by
  intro k hk
  induction k with
  | zero => simp [acquireSeq, init]
  | succ n ih =>
      have hn : n ≤ c := Nat.le_of_succ_le hk
      have hlt : n < c := Nat.lt_of_succ_le hk
      have h1 : ¬ (size.1 > 4096) := by omega
      have h2 : ¬ (size.2 > 4096) := by omega
      rw [acquireSeq, ih hn]
      simp [acquire, refill, h1, h2, Nat.sub_pos_of_lt hlt]
      omega

/-- After waiting `ceil(60 / capacity)` seconds the refill grants at least one
token: `⌈60/c⌉ * c / 60 ≥ 1`. -/
theorem ceil_refill_ge_one (c : Nat) (hc : 1 ≤ c) : 1 ≤ (60 + (c - 1)) / c * c / 60 := by
  rw [Nat.le_div_iff_mul_le (by omega : 0 < 60), one_mul]
  have hd : (60 + (c - 1)) / c = (59 + c) / c := by congr 1; omega
  rw [hd, Nat.mul_comm]
  have h1 := Nat.div_add_mod (59 + c) c
  have h2 : (59 + c) % c < c := Nat.mod_lt _ (by omega)
  generalize (59 + c) % c = m at h1 h2
  generalize c * ((59 + c) / c) = X at h1
  omega

end VitrineAlu

namespace VitrineAlu

open TokenBucketLimiter

/-- C3: starting from a full bucket, `capacity` successive zero-elapsed
`acquire` calls all succeed, the next call raises `RateLimitError`, and an
`acquire` issued `⌈60 / capacity⌉` seconds later succeeds again, the refill
being `min(capacity, tokens + ⌊elapsed * capacity / 60⌋)`. -/
theorem acquire_exhaustion_and_refill (c : Nat) (a : Bool) (t : Nat) (size : Nat × Nat)
    (hc : 1 ≤ c) (hs1 : size.1 ≤ 4096) (hs2 : size.2 ≤ 4096) :
    (∀ k, k < c → (acquire (acquireSeq t size (init c a t) k) t size).1 = .ok ()) ∧
    (acquire (acquireSeq t size (init c a t) c) t size).1 =
      .error (.rateLimit "Too many requests") ∧
    (acquire (acquireSeq t size (init c a t) c) (t + (60 + (c - 1)) / c) size).1 = .ok () := by
  have h1 : ¬ (size.1 > 4096) := by omega
  have h2 : ¬ (size.2 > 4096) := by omega
  refine ⟨?_, ?_, ?_⟩
  · intro k hk
    rw [acquireSeq_init c a t size hs1 hs2 k (Nat.le_of_lt hk)]
    simp [acquire, refill, h1, h2, Nat.sub_pos_of_lt hk]
  · rw [acquireSeq_init c a t size hs1 hs2 c (Nat.le_refl c)]
    simp [acquire, refill, h1, h2]
  · rw [acquireSeq_init c a t size hs1 hs2 c (Nat.le_refl c)]
    have hr : 1 ≤ (60 + (c - 1)) / c * c / 60 := ceil_refill_ge_one c hc
    simp only [acquire, refill, Nat.sub_self, Nat.add_sub_cancel_left]
    have hrpos : 0 < (60 + (c - 1)) / c * c / 60 := hr
    simp only [Nat.zero_add, hrpos, if_pos]
    have htokens : 0 < min c ((60 + (c - 1)) / c * c / 60) := by
      exact Nat.lt_min.mpr ⟨by omega, hrpos⟩
    simp [h1, h2, htokens]

/-- C3 witness: capacity 2 at time 0; the two zero-elapsed acquires succeed,
the third is rate-limited, and one succeeds `⌈60/2⌉ = 30` seconds later. -/
theorem acquire_exhaustion_and_refill_witness :
    (acquire (acquireSeq 0 (1024, 1024) (init 2 false 0) 1) 0 (1024, 1024)).1 = .ok () ∧
    (acquire (acquireSeq 0 (1024, 1024) (init 2 false 0) 2) 0 (1024, 1024)).1 =
      .error (.rateLimit "Too many requests") ∧
    (acquire (acquireSeq 0 (1024, 1024) (init 2 false 0) 2) (0 + (60 + (2 - 1)) / 2)
      (1024, 1024)).1 = .ok () := by
  obtain ⟨hok, hlim, href⟩ :=
    acquire_exhaustion_and_refill 2 false 0 (1024, 1024) (by decide) (by decide) (by decide)
  exact ⟨hok 1 (by decide), hlim, href⟩

/-- C2 counterexample: capacity 10, 5 tokens, last refill at time 0; an
oversize request at time 60 raises `OversizeError` but the call's internal
refill leaves 10 tokens, not the 5 present before the call. -/
theorem acquire_oversize_counterexample :
    (acquire ⟨10, 5, false, 0⟩ 60 (8192, 100)).1 =
      .error (.oversize "Requested size exceeds 4K and ALLOW_4K is not set") ∧
    ((acquire ⟨10, 5, false, 0⟩ 60 (8192, 100)).2).tokens = 10 ∧
    ((acquire ⟨10, 5, false, 0⟩ 60 (8192, 100)).2).tokens ≠ 5 := by
  refine ⟨rfl, rfl, by decide⟩

/-- C2 (amended): an oversize request with `allow_4k` unset always raises
`OversizeError` — before the token check, so even with zero tokens the error
is `OversizeError`, and no token is ever consumed: afterwards the token count
is exactly the refilled count `min(capacity, tokens + ⌊elapsed·capacity/60⌋)`,
which equals the pre-call count whenever no time has elapsed and never falls
below it from any state with `tokens ≤ capacity`. -/
theorem acquire_oversize_precedence (st : TokenBucketLimiter) (now : Nat) (size : Nat × Nat)
    (hover : size.1 > 4096 ∨ size.2 > 4096) (ha : st.allow_4k = false) :
    (acquire st now size).1 =
      .error (.oversize "Requested size exceeds 4K and ALLOW_4K is not set") ∧
    (acquire st now size).2 = refill st now ∧
    (now = st.last_refill → (acquire st now size).2 = st) ∧
    (st.tokens ≤ st.capacity → st.tokens ≤ ((acquire st now size).2).tokens) := by
  have hallow : (refill st now).allow_4k = false := by
    simp only [refill]
    split <;> simp [ha]
  have hcond : ((size.1 > 4096 || size.2 > 4096) && !(refill st now).allow_4k) = true := by
    rw [hallow]
    rcases hover with h | h <;> simp [h]
  have hmain : acquire st now size =
      (.error (.oversize "Requested size exceeds 4K and ALLOW_4K is not set"), refill st now) := by
    simp only [acquire, hcond, if_pos]
  refine ⟨by rw [hmain], by rw [hmain], ?_, ?_⟩
  · intro hlast
    rw [hmain]
    rw [hlast, refill_self]
  · intro hle
    rw [hmain]
    simp only [refill]
    split
    · simp only
      exact Nat.le_min.mpr ⟨hle, Nat.le_add_right _ _⟩
    · exact Nat.le_refl _

/-- C2 witness: oversize request from state `⟨10, 5, allow_4k := false, 0⟩`
issued at time 0 (no elapsed time): `OversizeError`, state untouched. -/
theorem acquire_oversize_precedence_witness :
    (acquire ⟨10, 5, false, 0⟩ 0 (8192, 100)).1 =
      .error (.oversize "Requested size exceeds 4K and ALLOW_4K is not set") ∧
    (acquire ⟨10, 5, false, 0⟩ 0 (8192, 100)).2 = ⟨10, 5, false, 0⟩ := by
  obtain ⟨herr, _, hunch, _⟩ :=
    acquire_oversize_precedence ⟨10, 5, false, 0⟩ 0 (8192, 100) (Or.inl (by decide)) rfl
  exact ⟨herr, hunch rfl⟩

/-! ## `curation.py` — `CurationEngine`

Scores are Python floats, modelled as exact rationals: every comparison the
embedded code performs is against decimal literals (`0.3`) or
configuration-supplied thresholds, and the order on rationals agrees with the
order on the floats the code compares. -/

/-- The configuration fields of `media_ingest/config.py` that the embedded
code reads (`MediaIngestConfig`). -/
structure IngestConfig where
  aesthetic_threshold : Rat
  sharpness_threshold : Rat
  duplicate_hamming_threshold : Nat
  face_blur_enabled : Bool
deriving DecidableEq, Repr

/-- The score dictionary produced by `CurationEngine.score_image`: it always
carries exactly the keys `aesthetic`, `sharpness`, `exposure`, `blur`. -/
structure ScoreSet where
  aesthetic : Rat
  sharpness : Rat
  exposure : Rat
  blur : Rat
deriving DecidableEq, Repr

/-- Value of one hexadecimal digit, as `int(s, 16)` reads it.  `dhash` output
is always valid lowercase hex; other characters (on which Python would raise
`ValueError`) are given value 0, a case no embedded caller reaches. -/
def hexDigitVal (c : Char) : Nat :=
  if c.isDigit then c.toNat - 48
  else if 97 ≤ c.toNat ∧ c.toNat ≤ 102 then c.toNat - 87
  else if 65 ≤ c.toNat ∧ c.toNat ≤ 70 then c.toNat - 55
  else 0

/-- `int(s, 16)`: a hex string read as an integer. -/
def hexToNat (s : String) : Nat :=
  s.data.foldl (fun acc c => 16 * acc + hexDigitVal c) 0

/-- Number of ones in the binary expansion — `bin(x).count('1')`.  Structural
recursion on a fuel argument (`n / 2^k` reaches 0 after at most `n` halvings)
so that the definition evaluates inside the kernel. -/
def popcountAux : Nat → Nat → Nat
  | 0, _ => 0
  | _, 0 => 0
  | fuel + 1, n + 1 => (n + 1) % 2 + popcountAux fuel ((n + 1) / 2)

/-- `bin(x).count('1')` — the binary weight of `x`. -/
def popcount (n : Nat) : Nat := popcountAux n n

namespace CurationEngine

/-- `CurationEngine.is_duplicate(hash1, hash2, threshold=None)`: Hamming
distance between the two hashes read as hex integers, compared to the
threshold (the configured default when `None` is passed). -/
def is_duplicate (cfg : IngestConfig) (hash1 hash2 : String) (threshold : Option Nat) : Bool :=
  let t := threshold.getD cfg.duplicate_hamming_threshold
  popcount (hexToNat hash1 ^^^ hexToNat hash2) ≤ t

/-- `CurationEngine.should_keep_image(scores)`. -/
def should_keep_image (cfg : IngestConfig) (scores : ScoreSet) : Bool × List String :=
  let reasons : List String :=
    (if scores.aesthetic < cfg.aesthetic_threshold then
      ["aesthetic score " ++ toString scores.aesthetic ++ " < " ++
        toString cfg.aesthetic_threshold] else []) ++
    (if scores.sharpness < cfg.sharpness_threshold then
      ["sharpness " ++ toString scores.sharpness ++ " < " ++
        toString cfg.sharpness_threshold] else []) ++
    (if scores.exposure < mkRat 3 10 then
      ["poor exposure " ++ toString scores.exposure] else [])
  (reasons.length == 0, reasons)

/-- `CurationEngine.check_duplicate(image_hash)` over the engine's
`seen_hashes` state: scans the accepted hashes; any hit returns duplicate
without inserting, otherwise the hash is inserted. -/
def check_duplicate (cfg : IngestConfig) (seen : List String) (image_hash : String) :
    Bool × List String :=
  if seen.any (fun seen_hash => is_duplicate cfg image_hash seen_hash none) then (true, seen)
  else (false, image_hash :: seen)

end CurationEngine

open CurationEngine

/-- The duplicate test is symmetric in its two hash arguments. -/
theorem is_duplicate_comm (cfg : IngestConfig) (h1 h2 : String) (t : Option Nat) :
    is_duplicate cfg h1 h2 t = is_duplicate cfg h2 h1 t := by
  simp only [is_duplicate, Nat.xor_comm]

/-- C8: `should_keep_image` keeps iff the reasons list is empty, which holds
iff none of the three rejections fires (aesthetic below the configured
aesthetic threshold, sharpness below the configured sharpness threshold,
exposure below the fixed `0.3` floor), and exactly one reason is appended per
firing rejection.  The embedded function is pure: it reads only its arguments
and touches no state. -/
theorem should_keep_image_policy (cfg : IngestConfig) (scores : ScoreSet) :
    ((should_keep_image cfg scores).1 = true ↔ (should_keep_image cfg scores).2 = []) ∧
    ((should_keep_image cfg scores).1 = true ↔
      (¬ scores.aesthetic < cfg.aesthetic_threshold ∧
       ¬ scores.sharpness < cfg.sharpness_threshold ∧
       ¬ scores.exposure < mkRat 3 10)) ∧
    ((should_keep_image cfg scores).2).length =
      ((if scores.aesthetic < cfg.aesthetic_threshold then 1 else 0) +
       (if scores.sharpness < cfg.sharpness_threshold then 1 else 0) +
       (if scores.exposure < mkRat 3 10 then 1 else 0)) := by
  unfold should_keep_image
  split_ifs with ha hs he <;> simp_all

/-- C9: the duplicate test is the symmetric Hamming-distance comparison of
the hashes read as hex integers; `check_duplicate` inserts only when no
accepted hash is within threshold; hence two near-duplicate fresh images
processed in either order yield exactly one accepted hash — the first — and
the second is rejected without being inserted. -/
theorem duplicate_order_symmetry (cfg : IngestConfig) (s : List String) (A B : String)
    (hAB : is_duplicate cfg A B none = true)
    (hAfresh : s.any (fun seen_hash => is_duplicate cfg A seen_hash none) = false)
    (hBfresh : s.any (fun seen_hash => is_duplicate cfg B seen_hash none) = false) :
    (∀ h1 h2 t, is_duplicate cfg h1 h2 t = is_duplicate cfg h2 h1 t) ∧
    (∀ seen h, (seen.any (fun seen_hash => is_duplicate cfg h seen_hash none) = true →
        check_duplicate cfg seen h = (true, seen)) ∧
      (seen.any (fun seen_hash => is_duplicate cfg h seen_hash none) = false →
        check_duplicate cfg seen h = (false, h :: seen))) ∧
    (check_duplicate cfg s A = (false, A :: s) ∧
      check_duplicate cfg (A :: s) B = (true, A :: s)) ∧
    (check_duplicate cfg s B = (false, B :: s) ∧
      check_duplicate cfg (B :: s) A = (true, B :: s)) := by
  have hBA : is_duplicate cfg B A none = true := by
    rw [is_duplicate_comm]; exact hAB
  refine ⟨fun h1 h2 t => is_duplicate_comm cfg h1 h2 t, ?_, ⟨?_, ?_⟩, ⟨?_, ?_⟩⟩
  · intro seen h
    constructor <;> intro hmem <;> simp [check_duplicate, hmem]
  · simp [check_duplicate, hAfresh]
  · simp [check_duplicate, List.any_cons, hBA]
  · simp [check_duplicate, hBfresh]
  · simp [check_duplicate, List.any_cons, hAB]

/-- C9 witness: hashes `"00"` and `"01"` are at Hamming distance 1 ≤ 5; from
an empty index either order keeps exactly the first and rejects the second
without inserting it. -/
theorem duplicate_order_symmetry_witness :
    check_duplicate ⟨1/2, 100, 5, true⟩ [] "00" = (false, ["00"]) ∧
    check_duplicate ⟨1/2, 100, 5, true⟩ ["00"] "01" = (true, ["00"]) ∧
    check_duplicate ⟨1/2, 100, 5, true⟩ [] "01" = (false, ["01"]) ∧
    check_duplicate ⟨1/2, 100, 5, true⟩ ["01"] "00" = (true, ["01"]) := by
  obtain ⟨-, -, ⟨h1, h2⟩, ⟨h3, h4⟩⟩ :=
    duplicate_order_symmetry ⟨1/2, 100, 5, true⟩ [] "00" "01" (by decide) rfl rfl
  exact ⟨h1, h2, h3, h4⟩

/-! ## `pipeline.py` — `ProcessedDatabase` and `MediaPipeline`

Images are opaque handles (`Nat`).  Each external collaborator call made by
`process_file` for one input file (hashing, loading, perceptual hash,
scoring, enhance, watermark, face blur, save, sidecar write) is an input of
the embedding, an `Except` describing what that call returns or raises for
this file — `process_file` wraps its whole body in
`try: ... except Exception: return None`. -/

/-- One row of the `processed` table (`sha256` is the primary key). -/
structure ProcessedRecord where
  sha256 : String
  source_path : String
  output_path : String
  source : String
deriving DecidableEq, Repr

namespace ProcessedDatabase

/-- `ProcessedDatabase.is_processed(sha256)` — `SELECT 1 FROM processed WHERE
sha256 = ?`. -/
def is_processed (db : List ProcessedRecord) (sha256 : String) : Bool :=
  db.any (fun r => r.sha256 == sha256)

/-- `ProcessedDatabase.mark_processed(...)` — `INSERT OR REPLACE INTO
processed`: any row with the same primary key is replaced. -/
def mark_processed (db : List ProcessedRecord) (sha256 source_path output_path source : String) :
    List ProcessedRecord :=
  ⟨sha256, source_path, output_path, source⟩ :: db.filter (fun r => r.sha256 != sha256)

end ProcessedDatabase

open ProcessedDatabase

/-- Marking a hash makes `is_processed` report it. -/
theorem is_processed_mark (db : List ProcessedRecord) (h sp op src : String) :
    is_processed (mark_processed db h sp op src) h = true := by
  simp [is_processed, mark_processed]

/-- `mark_processed` never un-marks: every hash reported processed before is
still reported processed afterwards. -/
theorem is_processed_mark_mono (db : List ProcessedRecord) (h sp op src h2 : String)
    (hin : is_processed db h2 = true) :
    is_processed (mark_processed db h sp op src) h2 = true := by
  by_cases heq : h2 = h
  · subst heq; exact is_processed_mark db h2 sp op src
  · simp only [is_processed, List.any_eq_true, beq_iff_eq] at hin
    obtain ⟨r, hr, hrh⟩ := hin
    simp only [is_processed, mark_processed, List.any_cons, List.any_eq_true, beq_iff_eq,
      Bool.or_eq_true]
    right
    refine ⟨r, ?_, hrh⟩
    simp only [List.mem_filter, bne_iff_ne, ne_eq]
    exact ⟨hr, by rw [hrh]; exact heq⟩

/-- Top-level names bound in the module namespace of `pipeline.py`: its
imports and its own definitions.  Python resolves a bare name used inside
`process_file` against this namespace (after locals) and the builtins; `np`
is in neither, since `pipeline.py` never imports numpy. -/
def pipelineModuleNames : List String :=
  ["hashlib", "json", "shutil", "sqlite3", "datetime", "Path",
   "Dict", "List", "Optional", "Tuple", "cv2", "Image",
   "config", "curation_engine", "enhancer", "face_blurrer", "watermark_applier",
   "ProcessedDatabase", "MediaPipeline", "pipeline"]

/-- What the external world does for one input file: the result (value or
raised exception) of each collaborator call `process_file` makes. -/
structure FileEnv where
  /-- `str(input_path)`. -/
  path : String
  /-- `compute_sha256(input_path)` — file I/O may raise. -/
  hash : Except Exn String
  /-- `Image.open` / `cv2.imread` of the input. -/
  load : Except Exn Unit
  /-- `curation_engine.compute_perceptual_hash(input_path)`. -/
  phash : Except Exn String
  /-- `curation_engine.score_image(input_path)`. -/
  scores : Except Exn ScoreSet
  /-- `enhancer.process_image(pil_image)`. -/
  enhanceR : Except Exn Nat
  /-- `watermark_applier.apply_watermark(enhanced_pil)`. -/
  watermarkR : Except Exn Nat
  /-- The CV2 round-trip plus `face_blurrer.process_image`, were the
  face-blur branch able to run. -/
  faceBlurR : Except Exn Nat
  /-- `generate_output_path(input_path, scores)`. -/
  outPath : String
  /-- `final_pil.save(output_path, quality=95)`. -/
  saveR : Except Exn Unit
  /-- `create_sidecar_json(output_path, metadata)`. -/
  sidecarR : Except Exn Unit
deriving Repr

/-- Shared mutable state crossed by `process_file`: the processed-file
ledger, the curation engine's `seen_hashes`, and the persisted artifacts. -/
structure PState where
  processed : List ProcessedRecord
  seen : List String
  outputs : List (String × Nat)
  sidecars : List String
deriving DecidableEq, Repr

namespace MediaPipeline

/-- Body of `MediaPipeline.process_file` inside the `try:` — steps 1–10 of
the source, threading the shared state and stopping at the first raised
exception (whose partial state changes persist). -/
def process_file_inner (cfg : IngestConfig) (env : FileEnv) (source : String) (s : PState) :
    Except Exn (Option String) × PState :=
  match env.hash with
  | .error e => (.error e, s)
  | .ok file_hash =>
    if is_processed s.processed file_hash then (.ok none, s)
    else match env.load with
    | .error e => (.error e, s)
    | .ok _ =>
      match env.phash with
      | .error e => (.error e, s)
      | .ok perceptual_hash =>
        let dup := (CurationEngine.check_duplicate cfg s.seen perceptual_hash).1
        let seen1 := (CurationEngine.check_duplicate cfg s.seen perceptual_hash).2
        let s1 := { s with seen := seen1 }
        if dup then (.ok none, s1)
        else match env.scores with
          | .error e => (.error e, s1)
          | .ok scores =>
            let keep := (CurationEngine.should_keep_image cfg scores).1
            (if !keep then (.ok none, s1)
             else match env.enhanceR with
              | .error e => (.error e, s1)
              | .ok _enhanced =>
                match env.watermarkR with
                | .error e => (.error e, s1)
                | .ok watermarked =>
                  match (if cfg.face_blur_enabled then
                          (if "np" ∈ pipelineModuleNames then env.faceBlurR
                           else .error (.nameError "np"))
                         else .ok watermarked) with
                  | .error e => (.error e, s1)
                  | .ok final =>
                    let output_path := env.outPath
                    match env.saveR with
                    | .error e => (.error e, s1)
                    | .ok _ =>
                      let s2 := { s1 with outputs := (output_path, final) :: s1.outputs }
                      match env.sidecarR with
                      | .error e => (.error e, s2)
                      | .ok _ =>
                        let s3 := { s2 with sidecars := output_path :: s2.sidecars }
                        let db4 := mark_processed s3.processed file_hash env.path
                          output_path source
                        (.ok (some output_path), { s3 with processed := db4 }))

/-- `MediaPipeline.process_file`: the body above under
`try: ... except Exception as e: ... return None`. -/
def process_file (cfg : IngestConfig) (env : FileEnv) (source : String) (s : PState) :
    Option String × PState :=
  match process_file_inner cfg env source s with
  | (.ok r, s1) => (r, s1)
  | (.error _, s1) => (none, s1)

/-- `MediaPipeline.process_batch`: one `process_file` task per path, results
joined in submission order, non-`None` results collected. -/
def process_batch (cfg : IngestConfig) (envs : List FileEnv) (source : String) (s : PState) :
    List String × PState :=
  envs.foldl
    (fun acc env =>
      match process_file cfg env source acc.2 with
      | (some r, s1) => (acc.1 ++ [r], s1)
      | (none, s1) => (acc.1, s1))
    ([], s)

end MediaPipeline

open MediaPipeline

/-- If `process_file` already finds the content hash in the ledger it skips:
no transform runs, nothing changes. -/
theorem process_file_skip_processed (cfg : IngestConfig) (env : FileEnv) (source : String)
    (s : PState) (fh : String) (hh : env.hash = Except.ok fh)
    (hp : is_processed s.processed fh = true) :
    process_file cfg env source s = (none, s) := by
  unfold process_file process_file_inner
  rw [hh]
  simp [hp]

/-- Inversion on the `try:` body: a successful run read some hash `fh` from
the file, found it unprocessed, and left a state in which `fh` is marked. -/
theorem process_file_inner_some_inv (cfg : IngestConfig) (env : FileEnv) (source : String)
    (s : PState) (p : String) (s1 : PState)
    (hres : process_file_inner cfg env source s = (Except.ok (some p), s1)) :
    ∃ fh, env.hash = Except.ok fh ∧ is_processed s.processed fh = false ∧
      is_processed s1.processed fh = true := by
  simp only [process_file_inner] at hres
  repeat' split at hres
  all_goals simp_all
  obtain ⟨-, hs⟩ := hres
  subst hs
  exact is_processed_mark _ _ _ _ _

/-- Inversion: a successful `process_file` run read some hash `fh` from the
file, found it unprocessed, and left a state in which `fh` is marked. -/
theorem process_file_some_inv (cfg : IngestConfig) (env : FileEnv) (source : String)
    (s : PState) (p : String) (s1 : PState)
    (hres : process_file cfg env source s = (some p, s1)) :
    ∃ fh, env.hash = Except.ok fh ∧ is_processed s.processed fh = false ∧
      is_processed s1.processed fh = true := by
  unfold process_file at hres
  rcases hinner : process_file_inner cfg env source s with ⟨val, st⟩
  rw [hinner] at hres
  cases val with
  | error e => simp at hres
  | ok r =>
      have hres2 : (r, st) = (some p, s1) := hres
      injection hres2 with hr hst
      subst hr
      subst hst
      exact process_file_inner_some_inv _ _ _ _ _ _ hinner

/-- The only write `process_file_inner` ever makes to the ledger is the final
`mark_processed` of the hash it computed. -/
theorem process_file_inner_processed (cfg : IngestConfig) (env : FileEnv) (source : String)
    (s : PState) :
    ((process_file_inner cfg env source s).2).processed = s.processed ∨
    ∃ fh, env.hash = Except.ok fh ∧
      ((process_file_inner cfg env source s).2).processed =
        mark_processed s.processed fh env.path env.outPath source := by
  simp only [process_file_inner]
  repeat' split
  all_goals try exact Or.inl rfl
  exact Or.inr ⟨_, by assumption, rfl⟩

/-- `process_file` returns the second component of its `try:` body even when
that body raises. -/
theorem process_file_snd (cfg : IngestConfig) (env : FileEnv) (source : String) (s : PState) :
    (process_file cfg env source s).2 = (process_file_inner cfg env source s).2 := by
  unfold process_file
  rcases hinner : process_file_inner cfg env source s with ⟨val, st⟩
  cases val <;> rfl

/-- No later `process_file` call un-marks a processed hash. -/
theorem process_file_processed_mono (cfg : IngestConfig) (env : FileEnv) (source : String)
    (s : PState) (h : String) (hp : is_processed s.processed h = true) :
    is_processed ((process_file cfg env source s).2).processed h = true := by
  rw [process_file_snd]
  rcases process_file_inner_processed cfg env source s with heq | ⟨fh, -, heq⟩
  · rw [heq]; exact hp
  · rw [heq]; exact is_processed_mark_mono _ _ _ _ _ _ hp

/-- A file whose very hashing step raises is skipped with no state change. -/
theorem process_file_hash_error (cfg : IngestConfig) (env : FileEnv) (source : String)
    (s : PState) (e : Exn) (hh : env.hash = Except.error e) :
    process_file cfg env source s = (none, s) := by
  unfold process_file process_file_inner
  rw [hh]

/-- C1: idempotence of ingestion.  A `process_file` call that produced an
output marked the file's sha256 in the ledger, so a second call on identical
bytes (hence the identical hash) returns `None` with the state exactly
unchanged — no second record, output or transform; marking a hash makes
`is_processed` true, and no later call un-marks it. -/
theorem process_file_idempotent (cfg : IngestConfig) (env env2 : FileEnv)
    (source source2 : String) (s s1 : PState) (p : String)
    (hfst : process_file cfg env source s = (some p, s1))
    (hsame : env2.hash = env.hash) :
    process_file cfg env2 source2 s1 = (none, s1) ∧
    (∀ db hsha sp op src, is_processed (mark_processed db hsha sp op src) hsha = true) ∧
    (∀ env3 source3 t h, is_processed t.processed h = true →
      is_processed ((process_file cfg env3 source3 t).2).processed h = true) := by
  obtain ⟨fh, hh, -, hmarked⟩ := process_file_some_inv _ _ _ _ _ _ hfst
  exact ⟨process_file_skip_processed cfg env2 source2 s1 fh (hsame.trans hh) hmarked,
    fun db hsha sp op src => is_processed_mark db hsha sp op src,
    fun env3 source3 t h hp => process_file_processed_mono cfg env3 source3 t h hp⟩

/-- Witness configuration: thresholds `1/2` and `100`, Hamming threshold 5,
face blur disabled. -/
def wCfg : IngestConfig := ⟨mkRat 1 2, 100, 5, false⟩

/-- Witness file: every collaborator call succeeds and the scores pass. -/
def wEnv : FileEnv :=
  ⟨"in.jpg", .ok "aabb", .ok (), .ok "ff00", .ok ⟨1, 200, 1, 1⟩,
   .ok 10, .ok 11, .ok 12, "out.jpg", .ok (), .ok ()⟩

/-- Witness initial state: empty ledger, index and output directory. -/
def wS0 : PState := ⟨[], [], [], []⟩

/-- State after successfully processing `wEnv` from `wS0`. -/
def wS1 : PState :=
  ⟨[⟨"aabb", "in.jpg", "out.jpg", "nas"⟩], ["ff00"], [("out.jpg", 11)], ["out.jpg"]⟩

/-- C1 witness: processing the same bytes from `wS0` succeeds once; the
second call returns `None` and leaves the state untouched. -/
theorem process_file_idempotent_witness :
    process_file wCfg wEnv "nas" wS1 = (none, wS1) ∧
    is_processed (mark_processed [] "aabb" "in.jpg" "out.jpg" "nas") "aabb" = true := by
  obtain ⟨hskip, hmark, -⟩ :=
    process_file_idempotent wCfg wEnv wEnv "nas" "nas" wS0 wS1 "out.jpg" (by decide) rfl
  exact ⟨hskip, hmark [] "aabb" "in.jpg" "out.jpg" "nas"⟩

/-- C7: exception isolation.  Any exception raised inside the per-file body
is converted to a `None` return with the state it left behind, and a batch
drops a failing file's contribution without aborting: appending a file whose
processing raises yields exactly the other files' outputs. -/
theorem process_file_isolates_failures (cfg : IngestConfig) :
    (∀ env source s e s1, process_file_inner cfg env source s = (Except.error e, s1) →
      process_file cfg env source s = (none, s1)) ∧
    (∀ envs env source s e, env.hash = Except.error e →
      (process_batch cfg (envs ++ [env]) source s).1 = (process_batch cfg envs source s).1) := by
  constructor
  · intro env source s e s1 hres
    unfold process_file
    rw [hres]
  · intro envs env source s e hh
    have hstep : ∀ t : PState, process_file cfg env source t = (none, t) :=
      fun t => process_file_hash_error cfg env source t e hh
    unfold process_batch
    rw [List.foldl_append]
    simp only [List.foldl_cons, List.foldl_nil]
    rw [hstep]

/-- Witness file whose hashing raises an `IOError`. -/
def wEnvBad : FileEnv :=
  ⟨"bad.jpg", .error (.ioError "boom"), .ok (), .ok "ph", .ok ⟨1, 200, 1, 1⟩,
   .ok 10, .ok 11, .ok 12, "o.jpg", .ok (), .ok ()⟩

/-- C7 witness: the failing file is skipped with no state change and a batch
containing it produces the same outputs as without it. -/
theorem process_file_isolates_failures_witness :
    process_file wCfg wEnvBad "nas" wS0 = (none, wS0) ∧
    (process_batch wCfg ([wEnv] ++ [wEnvBad]) "nas" wS0).1 =
      (process_batch wCfg [wEnv] "nas" wS0).1 := by
  obtain ⟨h1, h2⟩ := process_file_isolates_failures wCfg
  exact ⟨h1 wEnvBad "nas" wS0 (.ioError "boom") wS0 rfl,
    h2 [wEnv] wEnvBad "nas" wS0 (.ioError "boom") rfl⟩

/-- With face blur enabled the body always raises before reaching a result:
the branch evaluates `np.array`, and `np` is bound nowhere in the module. -/
theorem process_file_face_blur_none (cfg : IngestConfig) (env : FileEnv) (source : String)
    (s : PState) (hfb : cfg.face_blur_enabled = true) :
    (process_file cfg env source s).1 = none := by
  have hnp : "np" ∉ pipelineModuleNames := by decide
  unfold process_file
  rcases hinner : process_file_inner cfg env source s with ⟨val, st⟩
  cases val with
  | error e => rfl
  | ok r =>
    cases r with
    | none => rfl
    | some p =>
      exfalso
      simp only [process_file_inner] at hinner
      repeat' split at hinner
      all_goals simp_all

/-- C10: with `face_blur_enabled`, `process_file` never succeeds: the
face-blur branch references `np`, which `pipeline.py` never imports, so the
branch raises `NameError`, the top-level handler converts it to a skip, and
every call returns `None`. -/
theorem face_blur_never_processes (cfg : IngestConfig) (env : FileEnv) (source : String)
    (s : PState) (hfb : cfg.face_blur_enabled = true) :
    "np" ∉ pipelineModuleNames ∧ (process_file cfg env source s).1 = none := by
  exact ⟨by decide, process_file_face_blur_none cfg env source s hfb⟩

/-- C10 witness: the configuration of `wCfg` with face blur switched on
skips even the all-healthy witness file `wEnv`. -/
theorem face_blur_never_processes_witness :
    "np" ∉ pipelineModuleNames ∧
    (process_file ⟨mkRat 1 2, 100, 5, true⟩ wEnv "nas" wS0).1 = none :=
  face_blur_never_processes ⟨mkRat 1 2, 100, 5, true⟩ wEnv "nas" wS0 rfl

/-! ## `runway_adapter.py` — `RunwayAdapter._poll_task_status`

The provider's answer to the `i`-th status query is an input (`schedule i`).
Time starts at 0 and advances only by the `time.sleep` calls between polls
(2 s after `PENDING`/`RUNNING`/unknown, 5 s after a `requests.RequestException`);
the loop re-checks `time.time() - start_time < max_wait_time` before each
query.  A non-200 poll response raises a `RuntimeError` that the
`except requests.RequestException` clause does not catch, so it escapes the
loop, like the terminal `FAILED` RuntimeError. -/

/-- What one `GET /tasks/{task_id}` poll produces. -/
inductive PollOutcome where
  | succeeded (result : Nat)
  | failed (reason : String)
  | pending
  | running
  | unknownStatus
  | netError (msg : String)
  | httpError (code : Nat)
deriving DecidableEq, Repr

/-- How `_poll_task_status` ends: the task's result data, or a raised
exception. -/
inductive PollResult where
  | ok (result : Nat)
  | raised (e : Exn)
deriving DecidableEq, Repr

namespace RunwayAdapter

/-- The `while time.time() - start_time < max_wait_time:` loop of
`_poll_task_status`, from iteration `iter` with `elapsed` seconds spent. -/
def pollLoop (schedule : Nat → PollOutcome) (task_id : String) (maxWait : Nat)
    (iter elapsed : Nat) : PollResult :=
  if h : elapsed < maxWait then
    match schedule iter with
    | .succeeded result => .ok result
    | .failed reason => .raised (.runtimeError ("Runway task failed: " ++ reason))
    | .httpError code => .raised (.runtimeError ("Failed to poll task: " ++ toString code))
    | .pending => pollLoop schedule task_id maxWait (iter + 1) (elapsed + 2)
    | .running => pollLoop schedule task_id maxWait (iter + 1) (elapsed + 2)
    | .unknownStatus => pollLoop schedule task_id maxWait (iter + 1) (elapsed + 2)
    | .netError _ => pollLoop schedule task_id maxWait (iter + 1) (elapsed + 5)
  else
    .raised (.timeoutError ("Task " ++ task_id ++ " did not complete within " ++
      toString maxWait ++ " seconds"))

/-- `_poll_task_status(task_id, max_wait_time)`. -/
def poll_task_status (schedule : Nat → PollOutcome) (task_id : String) (maxWait : Nat) :
    PollResult :=
  pollLoop schedule task_id maxWait 0 0

end RunwayAdapter

open RunwayAdapter

/-- A poll status is non-terminal when the loop sleeps and continues on it. -/
def nonterminal : PollOutcome → Prop
  | .pending => True
  | .running => True
  | .unknownStatus => True
  | .netError _ => True
  | _ => False

/-- A schedule that never produces a terminal status drives the loop to the
time budget and a `TimeoutError`. -/
theorem pollLoop_timeout (schedule : Nat → PollOutcome) (task_id : String) (maxWait : Nat)
    (hs : ∀ i, nonterminal (schedule i)) :
    ∀ n iter elapsed, maxWait - elapsed ≤ n →
      pollLoop schedule task_id maxWait iter elapsed =
        .raised (.timeoutError ("Task " ++ task_id ++ " did not complete within " ++
          toString maxWait ++ " seconds")) := by
  intro n
  induction n with
  | zero =>
      intro iter elapsed hle
      have : ¬ elapsed < maxWait := by omega
      rw [pollLoop]
      simp [this]
  | succ n ih =>
      intro iter elapsed hle
      by_cases h : elapsed < maxWait
      · rw [pollLoop]
        simp only [h, dif_pos]
        have := hs iter
        cases hsi : schedule iter <;> rw [hsi] at this <;> simp only [nonterminal] at this
        · exact ih (iter + 1) (elapsed + 2) (by omega)
        · exact ih (iter + 1) (elapsed + 2) (by omega)
        · exact ih (iter + 1) (elapsed + 2) (by omega)
        · exact ih (iter + 1) (elapsed + 5) (by omega)
      · rw [pollLoop]
        simp [h]

/-- C6: the poll loop treats `FAILED` as terminal (raises at once), sleeps a
fixed 2 s on `PENDING`/`RUNNING` and a fixed 5 s on a transient network error
and continues — with no retry budget of its own — and raises `TimeoutError`
when the time budget elapses with no terminal status. -/
theorem poll_task_status_contract (schedule : Nat → PollOutcome) (task_id : String)
    (maxWait iter elapsed : Nat) (hlt : elapsed < maxWait) :
    (∀ reason, schedule iter = .failed reason →
      pollLoop schedule task_id maxWait iter elapsed =
        .raised (.runtimeError ("Runway task failed: " ++ reason))) ∧
    (schedule iter = .pending ∨ schedule iter = .running →
      pollLoop schedule task_id maxWait iter elapsed =
        pollLoop schedule task_id maxWait (iter + 1) (elapsed + 2)) ∧
    (∀ msg, schedule iter = .netError msg →
      pollLoop schedule task_id maxWait iter elapsed =
        pollLoop schedule task_id maxWait (iter + 1) (elapsed + 5)) ∧
    ((∀ i, nonterminal (schedule i)) →
      poll_task_status schedule task_id maxWait =
        .raised (.timeoutError ("Task " ++ task_id ++ " did not complete within " ++
          toString maxWait ++ " seconds"))) := by
  refine ⟨?_, ?_, ?_, ?_⟩
  · intro reason hsi
    rw [pollLoop]
    simp [hlt, hsi]
  · rintro (hsi | hsi) <;> (rw [pollLoop]; simp [hlt, hsi])
  · intro msg hsi
    rw [pollLoop]
    simp [hlt, hsi]
  · intro hs
    exact pollLoop_timeout schedule task_id maxWait hs (maxWait - 0) 0 0 (Nat.le_refl _)

/-- C6 witness: a task that reports `RUNNING` once, then a network blip,
then `FAILED`, under a 60-second budget. -/
def wSchedule : Nat → PollOutcome
  | 0 => .running
  | 1 => .netError "reset"
  | _ => .failed "oom"

/-- C6 witness: the run steps 0 → 2 → 7 seconds and surfaces the terminal
failure; an all-`PENDING` schedule times out instead. -/
theorem poll_task_status_contract_witness :
    poll_task_status wSchedule "t1" 60 =
      .raised (.runtimeError ("Runway task failed: " ++ "oom")) ∧
    poll_task_status (fun _ => .pending) "t1" 60 =
      .raised (.timeoutError ("Task " ++ "t1" ++ " did not complete within " ++
        toString 60 ++ " seconds")) := by
  constructor
  · have h0 := (poll_task_status_contract wSchedule "t1" 60 0 0 (by omega)).2.1 (Or.inr rfl)
    have h1 := (poll_task_status_contract wSchedule "t1" 60 1 2 (by omega)).2.2.1 "reset" rfl
    have h2 := (poll_task_status_contract wSchedule "t1" 60 2 7 (by omega)).1 "oom" rfl
    calc poll_task_status wSchedule "t1" 60
        = pollLoop wSchedule "t1" 60 1 2 := h0
      _ = pollLoop wSchedule "t1" 60 2 7 := h1
      _ = .raised (.runtimeError ("Runway task failed: " ++ "oom")) := h2
  · exact (poll_task_status_contract (fun _ => .pending) "t1" 60 0 0 (by omega)).2.2.2
      (fun _ => trivial)

/-! ## `generate.py` — `SDXLGenerator.generate_background`

The diffusion pipeline is an external collaborator; its sampling is not
deterministic across invocations (no fixed seed obligation), so the image the
`n`-th pipeline invocation would produce is an input `pipelineRun n`.  The
cache key is the full request tuple
`(prompt, negative_prompt, width, height, steps, guidance_scale, seed)`. -/

/-- The request tuple. -/
structure GenRequest where
  prompt : String
  negative_prompt : String
  width : Nat
  height : Nat
  steps : Nat
  guidance_scale : Rat
  seed : Option Int
deriving DecidableEq, Repr

/-- Python-dict lookup of `self._cache[cache_key]`. -/
def cacheLookup : List (GenRequest × Nat) → GenRequest → Option Nat
  | [], _ => none
  | (k, v) :: rest, r => if k = r then some v else cacheLookup rest r

/-- State of an `SDXLGenerator`: whether `self.pipeline` loaded, the cache,
and how many times the diffusion pipeline has been invoked. -/
structure SDXLGenerator where
  available : Bool
  cache : List (GenRequest × Nat)
  calls : Nat
deriving DecidableEq, Repr

namespace SDXLGenerator

/-- `SDXLGenerator.generate_background(...)`: raise if the pipeline is not
loaded; return the cached image on a key hit; otherwise invoke the pipeline
(whose result, or raised exception, is `pipelineRun self.calls`) and cache
the produced image under the full tuple. -/
def generate_background (pipelineRun : Nat → Except Exn Nat) (st : SDXLGenerator)
    (req : GenRequest) : Except Exn Nat × SDXLGenerator :=
  if !st.available then
    (.error (.runtimeError "SDXL pipeline not available"), st)
  else
    match cacheLookup st.cache req with
    | some img => (.ok img, st)
    | none =>
      match pipelineRun st.calls with
      | .error e => (.error e, { st with calls := st.calls + 1 })
      | .ok img => (.ok img, { st with cache := (req, img) :: st.cache, calls := st.calls + 1 })

end SDXLGenerator

/-! ## `main.py` — `replace_background`, generation section

```python
engine = settings.bg_engine
if engine == BGEngine.RUNWAY:
    try:
        if max_dim > 4096 and not allow_4k:
            raise HTTPException(400, "4K+ resolution not allowed in Runway mode ...")
        from .runway_adapter import generate_background_remote   # not defined there
        tmp_path = generate_background_remote(...)
        generated_bg = load_image(open(tmp_path, 'rb').read())
    except Exception as e:
        if fallback_local:
            engine = BGEngine.SDXL
        else:
            raise HTTPException(500, f"Runway generation failed: {e}")
if engine == BGEngine.SDXL:
    if max_dim > 4096 and not allow_4k:
        raise HTTPException(400, "4K+ resolution not allowed in SDXL mode ...")
    generated_bg = generate_background_sdxl(...)
...
return ProcessingResponse(success=True, output_path=..., message=...)
```
-/

/-- `BGEngine` of `config.py`. -/
inductive BGEngine where
  | sdxl
  | runway
deriving DecidableEq, Repr

/-- The `ProcessingResponse` fields relevant to engine/cache reporting, with
the defaults of `models.py`: the handler passes only `success`,
`output_path` and `message`, so `meta` stays `{}` and `engine_used` stays
`None`. -/
structure ProcessingResponse where
  success : Bool
  message : String
  engine_used : Option String
  meta : List (String × String)
deriving DecidableEq, Repr

/-- The response `replace_background` builds on success. -/
def mkReplaceResponse : ProcessingResponse :=
  { success := true, message := "Background replacement completed successfully"
    engine_used := none, meta := [] }

/-- Module-level names defined by `runway_adapter.py`: its imports and its
own definitions.  `from .runway_adapter import generate_background_remote`
succeeds only if the name is bound here. -/
def runwayAdapterModuleNames : List String :=
  ["requests", "time", "base64", "io", "np", "cv2", "Image",
   "Optional", "Dict", "Any", "log", "settings",
   "RunwayAdapter", "_runway_adapter", "get_runway_adapter", "generate_background_runway"]

/-- What the collaborators would do for one `replace_background` request:
the result of the remote Runway generation (were the import to succeed) and
of the local `generate_background_sdxl` call. -/
structure ReplaceEnv where
  remoteImpl : Except Exn Nat
  localImpl : Except Exn Nat
deriving Repr

/-- Which engines the handler actually attempted. -/
structure GenTrace where
  attemptedRemote : Bool
  attemptedLocal : Bool
deriving DecidableEq, Repr

namespace ReplaceBackground

/-- Body of the `try:` of the Runway branch. -/
def runwayTryBody (maxDim : Nat) (allow4k : Bool) (env : ReplaceEnv) : Except Exn Nat :=
  if maxDim > 4096 && !allow4k then
    .error (.httpException 400 "4K+ resolution not allowed in Runway mode unless ALLOW_4K=1")
  else if "generate_background_remote" ∈ runwayAdapterModuleNames then env.remoteImpl
  else .error (.importError "generate_background_remote")

/-- The `if engine == BGEngine.SDXL:` section. -/
def sdxlSection (maxDim : Nat) (allow4k : Bool) (env : ReplaceEnv) (attemptedRemote : Bool) :
    Except Exn (Nat × ProcessingResponse) × GenTrace :=
  if maxDim > 4096 && !allow4k then
    (.error (.httpException 400 "4K+ resolution not allowed in SDXL mode unless ALLOW_4K=1"),
      ⟨attemptedRemote, false⟩)
  else
    match env.localImpl with
    | .ok img => (.ok (img, mkReplaceResponse), ⟨attemptedRemote, true⟩)
    | .error e => (.error e, ⟨attemptedRemote, true⟩)

/-- The generation section of `replace_background`: engine selection, the
one-way remote→local fallback, and the success response it builds. -/
def generateSection (engine : BGEngine) (maxDim : Nat) (allow4k fallbackLocal : Bool)
    (env : ReplaceEnv) : Except Exn (Nat × ProcessingResponse) × GenTrace :=
  match engine with
  | .runway =>
    match runwayTryBody maxDim allow4k env with
    | .ok img => (.ok (img, mkReplaceResponse), ⟨true, false⟩)
    | .error e =>
      if fallbackLocal then sdxlSection maxDim allow4k env true
      else (.error (.httpException 500 ("Runway generation failed: " ++ e.msg)), ⟨true, false⟩)
  | .sdxl => sdxlSection maxDim allow4k env false

/-- The endpoint-level `except HTTPException: raise / except Exception:
raise HTTPException(500, f"Processing failed: {e}")` conversion: every error
escaping the handler body becomes an HTTP status and detail. -/
def endpointStatus : Except Exn (Nat × ProcessingResponse) → Except (Nat × String) (Nat × ProcessingResponse)
  | .ok r => .ok r
  | .error (.httpException s d) => .error (s, d)
  | .error e => .error (500, "Processing failed: " ++ e.msg)

end ReplaceBackground

/-- C4 evaluation: with the remote engine preferred the remote attempt raises
(here the `ImportError` the missing `generate_background_remote` always
produces); with fallback enabled the local engine runs and its image is
returned — but the response reports `engine_used = None`, never
`"local-fallback"`; with fallback disabled the call surfaces an HTTP 500;
and a local-engine failure under local preference never attempts remote. -/
theorem replace_fallback_behavior :
    (ReplaceBackground.generateSection .runway 1024 false true ⟨.ok 5, .ok 7⟩ =
      (.ok (7, mkReplaceResponse), ⟨true, true⟩)) ∧
    mkReplaceResponse.engine_used = none ∧
    "generate_background_remote" ∉ runwayAdapterModuleNames ∧
    (ReplaceBackground.endpointStatus
        (ReplaceBackground.generateSection .runway 1024 false false ⟨.ok 5, .ok 7⟩).1 =
      .error (500, "Runway generation failed: " ++
        (Exn.importError "generate_background_remote").msg)) ∧
    (ReplaceBackground.generateSection .sdxl 1024 false true
        ⟨.ok 5, .error (.runtimeError "SDXL pipeline not available")⟩ =
      (.error (.runtimeError "SDXL pipeline not available"), ⟨false, true⟩)) := by
  exact ⟨rfl, rfl, by decide, rfl, rfl⟩

/-- The request tuple the repository's own replace test submits twice. -/
def wReq : GenRequest := ⟨"a", "people, text, watermark", 1024, 1024, 20, mkRat 15 2, some 1⟩

/-- A diffusion pipeline whose `n`-th invocation yields image `100 + n`:
distinct invocations produce distinct images. -/
def wRun : Nat → Except Exn Nat := fun n => .ok (100 + n)

/-- C5 evaluation: the first call on `wReq` misses the cache, invokes the
pipeline and caches its image under the full tuple; the second call on the
identical tuple returns the bit-identical cached image without invoking the
pipeline (whose next invocation would have produced a different image) —
yet the handler's response carries no cache-hit flag at all: `meta` is empty
and `engine_used` is `None` on both calls. -/
theorem generate_background_cache :
    (SDXLGenerator.generate_background wRun ⟨true, [], 0⟩ wReq =
      (.ok 100, ⟨true, [(wReq, 100)], 1⟩)) ∧
    (SDXLGenerator.generate_background wRun ⟨true, [(wReq, 100)], 1⟩ wReq =
      (.ok 100, ⟨true, [(wReq, 100)], 1⟩)) ∧
    wRun 1 = .ok 101 ∧
    mkReplaceResponse.meta = [] ∧
    mkReplaceResponse.meta.lookup "cache_hit" = none ∧
    mkReplaceResponse.engine_used = none := by
  exact ⟨rfl, rfl, rfl, rfl, rfl, rfl⟩

end VitrineAlu
